import Mathlib

/-!
# NFC Sacco ledger — verification of the accounting core

Shallow embedding of the savings & loan ledger of `src/database/db_manager.py`
(class `DatabaseManager`): the database is a `DbState` record of row lists,
each mutating method becomes a function from `DbState` to a result carrying
the state at return (or at the point a Python exception is raised).  Money
amounts (`REAL` / Python `float`) are modelled as exact rationals `ℚ`;
row ids (SQLite rowids) as `Nat` counters; dates as ISO strings compared
lexicographically, which is how SQLite compares `TEXT`.

Columns that the ledger methods merely copy from caller-supplied dictionaries
into rows and never read back (names, contact and next-of-kin fields, cheque
and receipt numbers, notes) are omitted from the row records; every column
that any ledger method reads, tests or computes with is present.
-/

namespace NfcSacco

/-- Loan `status` column values occurring in the system
(`'Active'`, `'Completed'`; `'Defaulted'` exists in the data model
but is never written by any code path). -/
inductive LoanStatus where
  | Active
  | Completed
  | Defaulted
deriving DecidableEq, Repr

/-- A row of `members`, restricted to the columns the ledger reads:
`member_id` and `station_id` (read by `record_transaction`). -/
structure Member where
  member_id : String
  station_id : String
deriving DecidableEq, Repr

/-- A row of `savings_accounts`, restricted to the columns the ledger
reads or writes: `account_id` (rowid), `member_id`, and the three
running totals. -/
structure SavingsAccount where
  account_id : Nat
  member_id : String
  current_balance : ℚ
  total_deposits : ℚ
  total_withdrawals : ℚ
deriving DecidableEq, Repr

/-- A row of `loans`, restricted to the columns the ledger reads or
writes in `disburse_loan` / `record_loan_repayment`. -/
structure Loan where
  loan_id : Nat
  member_id : String
  station_id : String
  loan_number : String
  principal_amount : ℚ
  interest_rate : ℚ
  interest_amount : ℚ
  total_amount : ℚ
  monthly_installment : ℚ
  duration_months : Nat
  amount_paid : ℚ
  balance_outstanding : ℚ
  status : LoanStatus
deriving DecidableEq, Repr

/-- A row of `loan_repayments` (audit trail), restricted to the columns
`record_loan_repayment` computes rather than copies verbatim from the
caller's payment dictionary. -/
structure LoanRepayment where
  loan_id : Nat
  member_id : String
  payment_date : String
  expected_amount : ℚ
  actual_amount : ℚ
  balance_before : ℚ
  balance_after : ℚ
  created_by : String
deriving DecidableEq, Repr

/-- A row of `transactions` as inserted by `record_transaction`. -/
structure Transaction where
  transaction_id : Nat
  transaction_date : String
  member_id : String
  station_id : String
  transaction_type : String
  account_type : String
  account_id : String
  description : String
  amount : ℚ
  is_credit : Bool
  created_by : String
deriving DecidableEq, Repr

/-- The caller-supplied metadata dictionary (`transaction_data` /
`payment_data`).  The `.get(key, default)` calls with a `datetime.now()`
default are modelled by passing the already-resolved value. -/
structure TransactionData where
  transaction_date : String
  description : String
deriving DecidableEq, Repr

/-- How a ledger call can fail: a deliberate `raise ValueError(msg)`,
or the unhandled `TypeError` Python raises when a `fetchone` result that
is `None` is subscripted (`row['col']`). -/
inductive DbError where
  | valueError (msg : String)
  | typeErrorNoneSubscript
deriving DecidableEq, Repr

/-- The database state: one list per table touched by the ledger, plus the
SQLite rowid counters for `transactions` / `loans` and the
`next_member_number` system setting (persisted by the source as a decimal
string via `str`/`int`, which round-trip, so it is carried as a `Nat`). -/
structure DbState where
  members : List Member
  savings_accounts : List SavingsAccount
  loans : List Loan
  loan_repayments : List LoanRepayment
  transactions : List Transaction
  next_transaction_id : Nat
  next_loan_id : Nat
  next_member_number : Nat
deriving DecidableEq, Repr

/-- Result of a mutating call: normal return or a Python exception, in both
cases together with the connection state at that moment (uncommitted
statements already executed are visible on the connection). -/
inductive DbRes (α : Type) where
  | ok (val : α) (s : DbState)
  | err (e : DbError) (s : DbState)
deriving DecidableEq, Repr

/-- `fetchone("SELECT ... FROM savings_accounts WHERE account_id = ?")`. -/
def findAccount (s : DbState) (account_id : Nat) : Option SavingsAccount :=
  s.savings_accounts.find? (fun a => a.account_id == account_id)

/-- `fetchone("SELECT * FROM loans WHERE loan_id = ?")`. -/
def findLoan (s : DbState) (loan_id : Nat) : Option Loan :=
  s.loans.find? (fun l => l.loan_id == loan_id)

/-- `get_member`: `fetchone("SELECT * FROM members WHERE member_id = ?")`. -/
def findMember (s : DbState) (member_id : String) : Option Member :=
  s.members.find? (fun m => m.member_id == member_id)

/-- `record_transaction`: looks the member up to obtain `station_id`
(subscripting the `None` row raises `TypeError` when the member does not
exist) and inserts one `transactions` row. -/
def record_transaction (s : DbState) (member_id : String)
    (transaction_type : String) (account_type : String) (account_id : String)
    (amount : ℚ) (is_credit : Bool) (td : TransactionData)
    (created_by : String) : DbRes Unit :=
  match findMember s member_id with
  | none => .err .typeErrorNoneSubscript s
  | some member =>
    .ok () { s with
      transactions := s.transactions ++
        [{ transaction_id := s.next_transaction_id
           transaction_date := td.transaction_date
           member_id := member_id
           station_id := member.station_id
           transaction_type := transaction_type
           account_type := account_type
           account_id := account_id
           description := td.description
           amount := amount
           is_credit := is_credit
           created_by := created_by }]
      next_transaction_id := s.next_transaction_id + 1 }

/-- `deposit_to_savings`: first runs the balance `UPDATE` (a no-op when no
row matches), then fetches the account's `member_id` — so a missing
account surfaces as the `TypeError` from subscripting `None`, after the
vacuous update — and records one credit transaction. -/
def deposit_to_savings (s : DbState) (account_id : Nat) (amount : ℚ)
    (td : TransactionData) (created_by : String) : DbRes Unit :=
  let s1 : DbState := { s with
    savings_accounts := s.savings_accounts.map (fun a =>
      if a.account_id == account_id then
        { a with current_balance := a.current_balance + amount
                 total_deposits := a.total_deposits + amount }
      else a) }
  match findAccount s1 account_id with
  | none => .err .typeErrorNoneSubscript s1
  | some account =>
    record_transaction s1 account.member_id "Savings Deposit" "Savings"
      (toString account_id) amount true td created_by

/-- `withdraw_from_savings`: fetches the account (a missing account id
raises `TypeError` on `account['current_balance']`), raises
`ValueError("Insufficient balance")` when `current_balance < amount`,
otherwise updates the balances and records one debit transaction. -/
def withdraw_from_savings (s : DbState) (account_id : Nat) (amount : ℚ)
    (td : TransactionData) (created_by : String) : DbRes Unit :=
  match findAccount s account_id with
  | none => .err .typeErrorNoneSubscript s
  | some account =>
    if account.current_balance < amount then
      .err (.valueError "Insufficient balance") s
    else
      let s1 : DbState := { s with
        savings_accounts := s.savings_accounts.map (fun a =>
          if a.account_id == account_id then
            { a with current_balance := a.current_balance - amount
                     total_withdrawals := a.total_withdrawals + amount }
          else a) }
      record_transaction s1 account.member_id "Savings Withdrawal" "Savings"
        (toString account_id) amount false td created_by

/-- The caller-supplied `loan_data` dictionary of `disburse_loan`,
restricted to the fields the ledger computation reads.  `loan_number` is
built from `datetime.now()`; the timestamp string is passed in as `now`. -/
structure LoanData where
  member_id : String
  station_id : String
  principal_amount : ℚ
  interest_rate : ℚ
  duration_months : Nat
deriving DecidableEq, Repr

/-- `disburse_loan`: computes the flat-rate figures
(`interest_amount = principal * rate/100`, no rounding in the source),
inserts the loan row and one credit transaction for the principal.
`amount_paid` is not listed in the `INSERT`; its value is the schema
column default.  Modelled from the spec: the schema file is not in the
repository snapshot and the spec states `amount_paid = 0` at disbursement,
so the default is taken to be `0`. -/
def disburse_loan (s : DbState) (ld : LoanData) (now : String)
    (td : TransactionData) (created_by : String) : DbRes Nat :=
  let principal := ld.principal_amount
  let interest_amount := principal * (ld.interest_rate / 100)
  let total_amount := principal + interest_amount
  let monthly_installment := total_amount / (ld.duration_months : ℚ)
  let loan_number := "L-" ++ ld.member_id ++ "-" ++ now
  let loan_id := s.next_loan_id
  let s1 : DbState := { s with
    loans := s.loans ++
      [{ loan_id := loan_id
         member_id := ld.member_id
         station_id := ld.station_id
         loan_number := loan_number
         principal_amount := principal
         interest_rate := ld.interest_rate
         interest_amount := interest_amount
         total_amount := total_amount
         monthly_installment := monthly_installment
         duration_months := ld.duration_months
         amount_paid := 0
         balance_outstanding := total_amount
         status := .Active }]
    next_loan_id := s.next_loan_id + 1 }
  match record_transaction s1 ld.member_id "Loan Disbursement" "Loan"
      (toString loan_id) principal true td created_by with
  | .ok _ s2 => .ok loan_id s2
  | .err e s2 => .err e s2

/-- `record_loan_repayment`: fetches the loan
(`raise ValueError("Loan not found")` when missing), computes
`balance_after = max(0, balance_before - amount)`, appends the
`loan_repayments` audit row, updates the loan
(`amount_paid += amount`, `balance_outstanding = balance_after`,
`status = 'Completed' if balance_after <= 0 else 'Active'`) and records
one debit transaction. -/
def record_loan_repayment (s : DbState) (loan_id : Nat) (amount : ℚ)
    (pd : TransactionData) (payment_date : String)
    (created_by : String) : DbRes Unit :=
  match findLoan s loan_id with
  | none => .err (.valueError "Loan not found") s
  | some loan =>
    let balance_before := loan.balance_outstanding
    let balance_after := max 0 (balance_before - amount)
    let s1 : DbState := { s with
      loan_repayments := s.loan_repayments ++
        [{ loan_id := loan_id
           member_id := loan.member_id
           payment_date := payment_date
           expected_amount := loan.monthly_installment
           actual_amount := amount
           balance_before := balance_before
           balance_after := balance_after
           created_by := created_by }] }
    let new_amount_paid := loan.amount_paid + amount
    let new_status : LoanStatus :=
      if balance_after ≤ 0 then .Completed else .Active
    let s2 : DbState := { s1 with
      loans := s1.loans.map (fun l =>
        if l.loan_id == loan_id then
          { l with amount_paid := new_amount_paid
                   balance_outstanding := balance_after
                   status := new_status }
        else l) }
    record_transaction s2 loan.member_id "Loan Repayment" "Loan"
      (toString loan_id) amount false pd created_by

/-- Big-endian decimal digits of `n` (empty for `0`), the digits of the
decimal rendering Python's `d` format produces. -/
def natDigits (n : Nat) : List Nat := (Nat.digits 10 n).reverse

/-- The character for one decimal digit. -/
def digitChar (d : Nat) : Char := Char.ofNat (48 + d)

/-- The digit list of Python's `f"{n:04d}"`: the decimal digits of `n`,
left-padded with zeros to a minimum width of four. -/
def padDigits (n : Nat) : List Nat :=
  List.replicate (4 - (natDigits n).length) 0 ++ natDigits n

/-- Python's `f"{n:04d}"`: the decimal rendering of `n`, left-padded with
zeros to a minimum width of four characters. -/
def pad4 (n : Nat) : String := ⟨(padDigits n).map digitChar⟩

/-- `get_next_member_number`: `int(get_setting('next_member_number'))`. -/
def get_next_member_number (s : DbState) : Nat := s.next_member_number

/-- The caller-supplied `member_data`, restricted to the one field the
ledger reads (`station_id`); the name/contact/next-of-kin fields are
copied into the row unread. -/
structure MemberData where
  station_id : String
deriving DecidableEq, Repr

/-- `add_member`: reads the `next_member_number` setting, allocates
`member_id = f"NFC{next_num:04d}"`, inserts the member row, and writes
`next_num + 1` back to the setting, all before the single `commit`.
Returns the allocated `member_id`. -/
def add_member (s : DbState) (md : MemberData) (_created_by : String) :
    String × DbState :=
  let next_num := get_next_member_number s
  let member_id := "NFC" ++ pad4 next_num
  let s1 : DbState := { s with
    members := s.members ++ [{ member_id := member_id, station_id := md.station_id }]
    next_member_number := next_num + 1 }
  (member_id, s1)

/-- Python truthiness of an `Optional[str]` argument: `if member_id:` is
taken only when the value is neither `None` nor the empty string. -/
def strTruthy : Option String → Bool
  | none => false
  | some v => v ≠ ""

/-- The `WHERE` clause `get_transactions` builds: each condition is added
to the query only when the corresponding argument is truthy. -/
def txMatches (member_id start_date end_date : Option String)
    (t : Transaction) : Bool :=
  (!strTruthy member_id || t.member_id == member_id.getD "") &&
  (!strTruthy start_date || decide (start_date.getD "" ≤ t.transaction_date)) &&
  (!strTruthy end_date || decide (t.transaction_date ≤ end_date.getD ""))

/-- `ORDER BY transaction_date DESC, transaction_id DESC` as a Boolean
"comes no later than" test: a row sorts before another when its date is
lexicographically greater, ties broken by greater rowid. -/
def txOrder (t1 t2 : Transaction) : Bool :=
  decide (t2.transaction_date < t1.transaction_date) ||
  (t1.transaction_date == t2.transaction_date &&
    t2.transaction_id ≤ t1.transaction_id)

/-- `get_transactions`: `SELECT * FROM transactions` under the dynamically
built `WHERE` clause, `ORDER BY transaction_date DESC, transaction_id DESC`
(SQL semantics: the rows satisfying the conjunction of the added
conditions, in the order-by order). -/
def get_transactions (s : DbState) (member_id : Option String)
    (start_date : Option String) (end_date : Option String) :
    List Transaction :=
  (s.transactions.filter (txMatches member_id start_date end_date)).mergeSort
    txOrder

/-- The state at the moment a call returns or raises. -/
def DbRes.stateOf {α : Type} : DbRes α → DbState
  | .ok _ s => s
  | .err _ s => s

/-- Whether a call returned normally. -/
def DbRes.isOk {α : Type} : DbRes α → Bool
  | .ok _ _ => true
  | .err _ _ => false

/-- Applying a list of repayment amounts to one loan, one
`record_loan_repayment` call after another, stopping at the first
exception. -/
def applyRepayments (s : DbState) (loan_id : Nat) (pd : TransactionData)
    (payment_date created_by : String) : List ℚ → DbRes Unit
  | [] => .ok () s
  | a :: rest =>
    match record_loan_repayment s loan_id a pd payment_date created_by with
    | .ok _ s1 => applyRepayments s1 loan_id pd payment_date created_by rest
    | .err e s1 => .err e s1

/-- A repayment sequence in which every amount is at most the loan's
outstanding balance at the moment it is applied, and every call returns
normally. -/
def validRepaySeq (s : DbState) (loan_id : Nat) (pd : TransactionData)
    (payment_date created_by : String) : List ℚ → Bool
  | [] => true
  | a :: rest =>
    match findLoan s loan_id with
    | none => false
    | some l =>
      decide (a ≤ l.balance_outstanding) &&
      (match record_loan_repayment s loan_id a pd payment_date created_by with
       | .ok _ s1 => validRepaySeq s1 loan_id pd payment_date created_by rest
       | .err _ _ => false)

/-- The bookkeeping identity of the spec:
`amount_paid + balance_outstanding = total_amount`. -/
def loanInv (l : Loan) : Prop :=
  l.amount_paid + l.balance_outstanding = l.total_amount

instance (l : Loan) : Decidable (loanInv l) :=
  inferInstanceAs
    (Decidable (l.amount_paid + l.balance_outstanding = l.total_amount))

/-- Spec-side definition, following the spec's words `round(principal *
rate/100, 2)`: rounding to two decimal places.  To be compared with the
source computation in `disburse_loan`, which does not round. -/
def round2 (x : ℚ) : ℚ := (round (x * 100) : ℚ) / 100

/-- Spec-side filter predicate of the C8 claim: the conjunction of the
supplied (present) filters, an absent filter constraining nothing. -/
def specMatches (member_id start_date end_date : Option String)
    (t : Transaction) : Bool :=
  (match member_id with
   | none => true
   | some v => t.member_id == v) &&
  (match start_date with
   | none => true
   | some v => decide (v ≤ t.transaction_date)) &&
  (match end_date with
   | none => true
   | some v => decide (t.transaction_date ≤ v))

/-- The row `record_loan_repayment` appends to `loan_repayments`. -/
def repaymentRow (lid : Nat) (l : Loan) (a : ℚ) (pdate cb : String) :
    LoanRepayment :=
  { loan_id := lid
    member_id := l.member_id
    payment_date := pdate
    expected_amount := l.monthly_installment
    actual_amount := a
    balance_before := l.balance_outstanding
    balance_after := max 0 (l.balance_outstanding - a)
    created_by := cb }

/-- The row `record_transaction` appends to `transactions`. -/
def transactionRow (s : DbState) (member_id station_id ttype atype aid : String)
    (amount : ℚ) (is_credit : Bool) (td : TransactionData) (cb : String) :
    Transaction :=
  { transaction_id := s.next_transaction_id
    transaction_date := td.transaction_date
    member_id := member_id
    station_id := station_id
    transaction_type := ttype
    account_type := atype
    account_id := aid
    description := td.description
    amount := amount
    is_credit := is_credit
    created_by := cb }

/-- The loan row as updated by `record_loan_repayment`. -/
def repaidLoan (l : Loan) (a : ℚ) : Loan :=
  { l with
    amount_paid := l.amount_paid + a
    balance_outstanding := max 0 (l.balance_outstanding - a)
    status :=
      if max 0 (l.balance_outstanding - a) ≤ 0 then LoanStatus.Completed
      else LoanStatus.Active }

/-- The savings-account row as updated by `deposit_to_savings`. -/
def depositedAccount (a : SavingsAccount) (amt : ℚ) : SavingsAccount :=
  { a with
    current_balance := a.current_balance + amt
    total_deposits := a.total_deposits + amt }

/-- The savings-account row as updated by `withdraw_from_savings`. -/
def withdrawnAccount (a : SavingsAccount) (amt : ℚ) : SavingsAccount :=
  { a with
    current_balance := a.current_balance - amt
    total_withdrawals := a.total_withdrawals + amt }

/-- The loan row as inserted by `disburse_loan` from `loan_data` (the
numeric part of the computation; `amount_paid = 0` is the schema default,
modelled from the spec). -/
def disbursedLoan (s : DbState) (ld : LoanData) (now : String) : Loan :=
  { loan_id := s.next_loan_id
    member_id := ld.member_id
    station_id := ld.station_id
    loan_number := "L-" ++ ld.member_id ++ "-" ++ now
    principal_amount := ld.principal_amount
    interest_rate := ld.interest_rate
    interest_amount := ld.principal_amount * (ld.interest_rate / 100)
    total_amount :=
      ld.principal_amount + ld.principal_amount * (ld.interest_rate / 100)
    monthly_installment :=
      (ld.principal_amount + ld.principal_amount * (ld.interest_rate / 100)) /
        (ld.duration_months : ℚ)
    duration_months := ld.duration_months
    amount_paid := 0
    balance_outstanding :=
      ld.principal_amount + ld.principal_amount * (ld.interest_rate / 100)
    status := .Active }

section Fixtures

/-- Fixture: the default metadata dictionary used in concrete checks. -/
def td0 : TransactionData := { transaction_date := "2026-01-01", description := "" }

/-- Fixture: a registered member. -/
def mem0 : Member := { member_id := "NFC0001", station_id := "01" }

/-- Fixture: a fully active loan of total 100, nothing repaid yet. -/
def loan100 : Loan :=
  { loan_id := 1
    member_id := "NFC0001"
    station_id := "01"
    loan_number := "L-NFC0001-20260101000000"
    principal_amount := 100
    interest_rate := 0
    interest_amount := 0
    total_amount := 100
    monthly_installment := 100 / 12
    duration_months := 12
    amount_paid := 0
    balance_outstanding := 100
    status := .Active }

/-- Fixture: a database holding `mem0` and `loan100`. -/
def stLoan : DbState :=
  { members := [mem0]
    savings_accounts := []
    loans := [loan100]
    loan_repayments := []
    transactions := []
    next_transaction_id := 1
    next_loan_id := 2
    next_member_number := 2 }

/-- Fixture: `loan100` fully repaid: zero balance, status `Completed`. -/
def loanDone : Loan :=
  { loan100 with amount_paid := 100, balance_outstanding := 0,
                 status := .Completed }

/-- Fixture: a database holding `mem0` and the completed `loanDone`. -/
def stDone : DbState := { stLoan with loans := [loanDone] }

/-- Fixture: a savings account of `mem0` with balance 5000. -/
def acct5000 : SavingsAccount :=
  { account_id := 1
    member_id := "NFC0001"
    current_balance := 5000
    total_deposits := 5000
    total_withdrawals := 0 }

/-- Fixture: a database holding `mem0` and `acct5000`. -/
def stSav : DbState :=
  { members := [mem0]
    savings_accounts := [acct5000]
    loans := []
    loan_repayments := []
    transactions := []
    next_transaction_id := 1
    next_loan_id := 1
    next_member_number := 2 }

/-- Fixture: the same account driven to a negative balance (reachable by
a deposit of `-5100`, which `deposit_to_savings` accepts unchecked). -/
def stSavNeg : DbState :=
  { stSav with savings_accounts := [{ acct5000 with current_balance := -100 }] }

/-- Fixture: a database with `mem0` but no savings account at all. -/
def stNoAcct : DbState := { stSav with savings_accounts := [] }

/-- Fixture: loan application data for `mem0`. -/
def ld0 : LoanData :=
  { member_id := "NFC0001"
    station_id := "01"
    principal_amount := 100000
    interest_rate := 10
    duration_months := 12 }

/-- Fixture: loan application data whose exact flat interest,
`1 * (1/8)/100 = 1/800`, is not representable in two decimal places. -/
def ldFrac : LoanData :=
  { member_id := "NFC0001"
    station_id := "01"
    principal_amount := 1
    interest_rate := 1 / 8
    duration_months := 1 }

/-- Fixture: a ledger transaction of `mem0`, for the query claims. -/
def txA : Transaction :=
  { transaction_id := 1
    transaction_date := "2026-01-05"
    member_id := "NFC0001"
    station_id := "01"
    transaction_type := "Savings Deposit"
    account_type := "Savings"
    account_id := "1"
    description := ""
    amount := 5000
    is_credit := true
    created_by := "u" }

/-- Fixture: a second, earlier ledger transaction of `mem0`. -/
def txB : Transaction :=
  { txA with transaction_id := 2, transaction_date := "2026-01-03",
             amount := 200, is_credit := false,
             transaction_type := "Savings Withdrawal" }

/-- Fixture: a database holding the two ledger rows `txA`, `txB`. -/
def stTx : DbState :=
  { stSav with transactions := [txA, txB], next_transaction_id := 3 }

end Fixtures

/-- `find?` over a list updated pointwise at the rows matched by `p`,
when the update does not change whether a row matches. -/
theorem find_map_pointwise {α : Type} (l : List α) (p : α → Bool) (f : α → α)
    (hp : ∀ a, p (f a) = p a) :
    (l.map (fun a => if p a then f a else a)).find? p = (l.find? p).map f := by
  induction l with
  | nil => rfl
  | cons x xs ih =>
    by_cases hx : p x = true
    · simp [List.find?_cons, hx, hp]
    · have hx' : p x = false := by
        cases hpx : p x
        · rfl
        · exact absurd hpx hx
      simp [List.find?_cons, hx', hp, ih]

/-- A pointwise update whose guard matches no row of the list is the
identity. -/
theorem map_pointwise_of_none {α : Type} (l : List α) (p : α → Bool)
    (f : α → α) (h : l.find? p = none) :
    l.map (fun a => if p a then f a else a) = l := by
  rw [List.find?_eq_none] at h
  calc l.map (fun a => if p a then f a else a) = l.map id := by
        apply List.map_congr_left
        intro a ha
        simp [h a ha]
    _ = l := List.map_id l

theorem findAccount_update (s : DbState) (aid : Nat) (acct : SavingsAccount)
    (ha : findAccount s aid = some acct)
    (f : SavingsAccount → SavingsAccount)
    (hf : ∀ x, (f x).account_id = x.account_id) :
    (s.savings_accounts.map
      (fun x => if x.account_id == aid then f x else x)).find?
      (fun x => x.account_id == aid) = some (f acct) := by
  rw [find_map_pointwise s.savings_accounts (fun x => x.account_id == aid) f
    (fun x => by simp only []; rw [hf])]
  simp only [findAccount] at ha
  rw [ha]
  rfl

theorem deposit_effect (s : DbState) (aid : Nat) (amt : ℚ)
    (td : TransactionData) (cb : String) (acct : SavingsAccount) (mem : Member)
    (ha : findAccount s aid = some acct)
    (hm : findMember s acct.member_id = some mem) :
    deposit_to_savings s aid amt td cb = .ok ()
      { s with
        savings_accounts := s.savings_accounts.map (fun x =>
          if x.account_id == aid then depositedAccount x amt else x)
        transactions := s.transactions ++
          [transactionRow s acct.member_id mem.station_id "Savings Deposit"
            "Savings" (toString aid) amt true td cb]
        next_transaction_id := s.next_transaction_id + 1 } := by
  have h1 : (s.savings_accounts.map
      (fun x => if x.account_id == aid then depositedAccount x amt else x)).find?
      (fun x => x.account_id == aid) = some (depositedAccount acct amt) :=
    findAccount_update s aid acct ha _ (fun x => rfl)
  simp only [deposit_to_savings, findAccount, depositedAccount,
    record_transaction, transactionRow] at h1 ⊢
  rw [h1]
  simp only [findMember] at hm ⊢
  rw [hm]

theorem withdraw_effect_ok (s : DbState) (aid : Nat) (amt : ℚ)
    (td : TransactionData) (cb : String) (acct : SavingsAccount) (mem : Member)
    (ha : findAccount s aid = some acct)
    (hm : findMember s acct.member_id = some mem)
    (hb : amt ≤ acct.current_balance) :
    withdraw_from_savings s aid amt td cb = .ok ()
      { s with
        savings_accounts := s.savings_accounts.map (fun x =>
          if x.account_id == aid then withdrawnAccount x amt else x)
        transactions := s.transactions ++
          [transactionRow s acct.member_id mem.station_id "Savings Withdrawal"
            "Savings" (toString aid) amt false td cb]
        next_transaction_id := s.next_transaction_id + 1 } := by
  simp only [withdraw_from_savings, ha, if_neg (not_lt.mpr hb),
    record_transaction, transactionRow, withdrawnAccount]
  simp only [findMember] at hm ⊢
  rw [hm]

theorem withdraw_effect_err (s : DbState) (aid : Nat) (amt : ℚ)
    (td : TransactionData) (cb : String) (acct : SavingsAccount)
    (ha : findAccount s aid = some acct)
    (hb : acct.current_balance < amt) :
    withdraw_from_savings s aid amt td cb
      = .err (.valueError "Insufficient balance") s := by
  simp only [withdraw_from_savings, ha, if_pos hb]

theorem repay_effect (s : DbState) (lid : Nat) (a : ℚ) (pd : TransactionData)
    (pdate cb : String) (l : Loan) (mem : Member)
    (hl : findLoan s lid = some l)
    (hm : findMember s l.member_id = some mem) :
    record_loan_repayment s lid a pd pdate cb = .ok ()
      { s with
        loan_repayments := s.loan_repayments ++ [repaymentRow lid l a pdate cb]
        loans := s.loans.map (fun x =>
          if x.loan_id == lid then
            { x with
              amount_paid := l.amount_paid + a
              balance_outstanding := max 0 (l.balance_outstanding - a)
              status :=
                if max 0 (l.balance_outstanding - a) ≤ 0 then
                  LoanStatus.Completed
                else LoanStatus.Active }
          else x)
        transactions := s.transactions ++
          [transactionRow s l.member_id mem.station_id "Loan Repayment" "Loan"
            (toString lid) a false pd cb]
        next_transaction_id := s.next_transaction_id + 1 } := by
  simp only [record_loan_repayment, hl, record_transaction, repaymentRow,
    transactionRow]
  simp only [findMember] at hm ⊢
  rw [hm]

theorem findLoan_update (s : DbState) (lid : Nat) (l : Loan)
    (hl : findLoan s lid = some l) (f : Loan → Loan)
    (hf : ∀ x, (f x).loan_id = x.loan_id) :
    (s.loans.map (fun x => if x.loan_id == lid then f x else x)).find?
      (fun x => x.loan_id == lid) = some (f l) := by
  rw [find_map_pointwise s.loans (fun x => x.loan_id == lid) f
    (fun x => by simp only []; rw [hf])]
  simp only [findLoan] at hl
  rw [hl]
  rfl

theorem repay_ok_findLoan (s : DbState) (lid : Nat) (a : ℚ)
    (pd : TransactionData) (pdate cb : String) (l : Loan) (s1 : DbState)
    (hl : findLoan s lid = some l)
    (hrec : record_loan_repayment s lid a pd pdate cb = .ok () s1) :
    findLoan s1 lid = some (repaidLoan l a) := by
  simp only [record_loan_repayment, hl, record_transaction] at hrec
  split at hrec
  · exact absurd hrec (by simp)
  · injection hrec with h1 h2
    subst h2
    exact findLoan_update s lid l hl _ (fun x => rfl)

/-- Claim C2: for every existing loan (with its member present, as foreign
keys guarantee) and every repayment amount, `record_loan_repayment` returns
normally; the loan row afterwards is the fetched row with `amount_paid`
increased by `amount`, `balance_outstanding = max 0 (balance_before - amount)`
(so amounts in excess of the remaining balance are accepted and cap the
balance at zero) and status `Completed` when the new balance is `≤ 0` and
`Active` otherwise; exactly one `loan_repayments` row is appended, recording
`balance_before` and `balance_after`; and exactly one `transactions` row is
appended with `is_credit = false`, `amount = amount` and
`transaction_type = "Loan Repayment"`. -/
theorem C2_repayment_effect (s : DbState) (lid : Nat) (a : ℚ)
    (pd : TransactionData) (pdate cb : String) (l : Loan) (mem : Member)
    (hl : findLoan s lid = some l)
    (hm : findMember s l.member_id = some mem) :
    ∃ s', record_loan_repayment s lid a pd pdate cb = .ok () s' ∧
      findLoan s' lid = some (repaidLoan l a) ∧
      (repaidLoan l a).amount_paid = l.amount_paid + a ∧
      (repaidLoan l a).balance_outstanding = max 0 (l.balance_outstanding - a) ∧
      (repaidLoan l a).status =
        (if max 0 (l.balance_outstanding - a) ≤ 0 then LoanStatus.Completed
         else LoanStatus.Active) ∧
      s'.loan_repayments = s.loan_repayments ++ [repaymentRow lid l a pdate cb] ∧
      (repaymentRow lid l a pdate cb).balance_before = l.balance_outstanding ∧
      (repaymentRow lid l a pdate cb).balance_after =
        max 0 (l.balance_outstanding - a) ∧
      s'.transactions = s.transactions ++
        [transactionRow s l.member_id mem.station_id "Loan Repayment" "Loan"
          (toString lid) a false pd cb] ∧
      (transactionRow s l.member_id mem.station_id "Loan Repayment" "Loan"
        (toString lid) a false pd cb).is_credit = false ∧
      (transactionRow s l.member_id mem.station_id "Loan Repayment" "Loan"
        (toString lid) a false pd cb).amount = a := by
  have he := repay_effect s lid a pd pdate cb l mem hl hm
  refine ⟨_, he, ?_, rfl, rfl, rfl, rfl, rfl, rfl, rfl, rfl, rfl⟩
  exact repay_ok_findLoan s lid a pd pdate cb l _ hl he

/-- Witness for C2 at a concrete loan and repayment. -/
theorem C2_repayment_effect_witness :
    ∃ s', record_loan_repayment stLoan 1 30 td0 "2026-01-02" "u" = .ok () s' ∧
      findLoan s' 1 = some (repaidLoan loan100 30) ∧
      (repaidLoan loan100 30).amount_paid = loan100.amount_paid + 30 ∧
      (repaidLoan loan100 30).balance_outstanding =
        max 0 (loan100.balance_outstanding - 30) ∧
      (repaidLoan loan100 30).status =
        (if max 0 (loan100.balance_outstanding - 30) ≤ 0 then
          LoanStatus.Completed
         else LoanStatus.Active) ∧
      s'.loan_repayments = stLoan.loan_repayments ++
        [repaymentRow 1 loan100 30 "2026-01-02" "u"] ∧
      (repaymentRow 1 loan100 30 "2026-01-02" "u").balance_before =
        loan100.balance_outstanding ∧
      (repaymentRow 1 loan100 30 "2026-01-02" "u").balance_after =
        max 0 (loan100.balance_outstanding - 30) ∧
      s'.transactions = stLoan.transactions ++
        [transactionRow stLoan loan100.member_id mem0.station_id
          "Loan Repayment" "Loan" (toString 1) 30 false td0 "u"] ∧
      (transactionRow stLoan loan100.member_id mem0.station_id
        "Loan Repayment" "Loan" (toString 1) 30 false td0 "u").is_credit
        = false ∧
      (transactionRow stLoan loan100.member_id mem0.station_id
        "Loan Repayment" "Loan" (toString 1) 30 false td0 "u").amount = 30 :=
  C2_repayment_effect stLoan 1 30 td0 "2026-01-02" "u" loan100 mem0 rfl rfl

/-- Claim C1 counterexample: on a loan with `total_amount = 100` and
`balance_outstanding = 100`, a single repayment of `200` (an amount
exceeding the outstanding balance, which the claim explicitly includes)
leaves `amount_paid = 200` and `balance_outstanding = 0`, and
`200 + 0 ≠ 100`: the invariant is broken after that repayment. -/
theorem C1_counterexample :
    ((record_loan_repayment stLoan 1 200 td0 "2026-01-02" "u").isOk = true) ∧
    ((findLoan (record_loan_repayment stLoan 1 200 td0 "2026-01-02" "u").stateOf
        1).map (fun l => (l.amount_paid, l.balance_outstanding, l.total_amount))
      = some (200, 0, 100)) ∧
    (200 : ℚ) + 0 ≠ 100 := by
  norm_num [record_loan_repayment, stLoan, loan100, mem0, td0, findLoan,
    findMember, record_transaction, DbRes.isOk, DbRes.stateOf, List.find?,
    max_def]

/-- Claim C1 (amended): for every loan satisfying the bookkeeping identity
`amount_paid + balance_outstanding = total_amount` and every sequence of
repayments in which each amount is at most the balance outstanding at the
moment it is applied, the identity still holds after every repayment (after
every prefix of the sequence).  The unamended claim, which also covers
amounts exceeding the outstanding balance, is refuted by
`C1_counterexample`: an overpayment inflates `amount_paid` while the
balance is capped at zero. -/
theorem C1_invariant_preserved (reps : List ℚ) (s : DbState) (lid : Nat)
    (pd : TransactionData) (pdate cb : String) (l : Loan)
    (hl : findLoan s lid = some l) (hinv : loanInv l)
    (hvalid : validRepaySeq s lid pd pdate cb reps = true) (k : ℕ) :
    ∃ s' l', applyRepayments s lid pd pdate cb (reps.take k) = .ok () s' ∧
      findLoan s' lid = some l' ∧ loanInv l' := by
  induction reps generalizing s l k with
  | nil =>
    simp only [List.take_nil, applyRepayments]
    exact ⟨s, l, rfl, hl, hinv⟩
  | cons a rest ih =>
    cases k with
    | zero =>
      simp only [List.take_zero, applyRepayments]
      exact ⟨s, l, rfl, hl, hinv⟩
    | succ k =>
      simp only [validRepaySeq, hl, Bool.and_eq_true, decide_eq_true_eq]
        at hvalid
      obtain ⟨ha, hrest⟩ := hvalid
      cases hrec : record_loan_repayment s lid a pd pdate cb with
      | err e s1 =>
        rw [hrec] at hrest
        exact absurd hrest (by simp)
      | ok v s1 =>
        cases v
        rw [hrec] at hrest
        have hl1 : findLoan s1 lid = some (repaidLoan l a) :=
          repay_ok_findLoan s lid a pd pdate cb l s1 hl hrec
        have hinv1 : loanInv (repaidLoan l a) := by
          unfold loanInv at hinv ⊢
          unfold repaidLoan
          simp only
          rw [max_eq_right (by linarith)]
          linarith
        obtain ⟨s', l', h1, h2, h3⟩ := ih s1 (repaidLoan l a) hl1 hinv1 hrest k
        refine ⟨s', l', ?_, h2, h3⟩
        simp only [List.take_succ_cons, applyRepayments, hrec]
        exact h1

/-- Witness for C1 at a concrete two-step repayment sequence. -/
theorem C1_invariant_preserved_witness :
    ∃ s' l',
      applyRepayments stLoan 1 td0 "2026-01-02" "u"
        (([30, 70] : List ℚ).take 2) = .ok () s' ∧
      findLoan s' 1 = some l' ∧ loanInv l' :=
  C1_invariant_preserved [30, 70] stLoan 1 td0 "2026-01-02" "u" loan100 rfl
    (by norm_num [loanInv, loan100])
    (by norm_num [validRepaySeq, stLoan, loan100, mem0, td0, findLoan,
      findMember, record_loan_repayment, record_transaction, List.find?,
      max_def])
    2

/-- Claim C10 counterexample: on a loan with `balance_outstanding = 0` and
status `Completed`, the call `record_loan_repayment` with amount `-10` —
included in the claim's "any further call" — is accepted and sets
`balance_outstanding = 10` and status `Active`: the `Completed` state is
not absorbing under negative amounts, and the balance does not stay `0`. -/
theorem C10_counterexample :
    ((record_loan_repayment stDone 1 (-10) td0 "2026-01-02" "u").isOk
      = true) ∧
    ((findLoan (record_loan_repayment stDone 1 (-10) td0 "2026-01-02"
        "u").stateOf 1).map
        (fun l => (l.balance_outstanding, l.status))
      = some (10, LoanStatus.Active)) := by
  norm_num [record_loan_repayment, stDone, stLoan, loanDone, loan100, mem0,
    td0, findLoan, findMember, record_transaction, DbRes.isOk, DbRes.stateOf,
    List.find?, max_def]

/-- Claim C10 (amended): for every loan with `balance_outstanding = 0` and
status `Completed` (member present) and every *nonnegative* amount,
`record_loan_repayment` is accepted rather than rejected: it appends a
`loan_repayments` row with `balance_before = balance_after = 0` and one
`transactions` row, increases `amount_paid` by the amount, and leaves
`balance_outstanding` at `0` and the status at `Completed`.  For negative
amounts the state is not absorbing (`C10_counterexample`). -/
theorem C10_completed_absorbing (s : DbState) (lid : Nat) (a : ℚ)
    (pd : TransactionData) (pdate cb : String) (l : Loan) (mem : Member)
    (hl : findLoan s lid = some l)
    (hm : findMember s l.member_id = some mem)
    (hb : l.balance_outstanding = 0) (_hs : l.status = LoanStatus.Completed)
    (ha : 0 ≤ a) :
    ∃ s', record_loan_repayment s lid a pd pdate cb = .ok () s' ∧
      findLoan s' lid = some (repaidLoan l a) ∧
      (repaidLoan l a).amount_paid = l.amount_paid + a ∧
      (repaidLoan l a).balance_outstanding = 0 ∧
      (repaidLoan l a).status = LoanStatus.Completed ∧
      s'.loan_repayments = s.loan_repayments ++
        [repaymentRow lid l a pdate cb] ∧
      (repaymentRow lid l a pdate cb).balance_before = 0 ∧
      (repaymentRow lid l a pdate cb).balance_after = 0 ∧
      s'.transactions = s.transactions ++
        [transactionRow s l.member_id mem.station_id "Loan Repayment" "Loan"
          (toString lid) a false pd cb] := by
  have he := repay_effect s lid a pd pdate cb l mem hl hm
  have hmax : max 0 (l.balance_outstanding - a) = 0 := by
    rw [hb]
    exact max_eq_left (by linarith)
  refine ⟨_, he, repay_ok_findLoan s lid a pd pdate cb l _ hl he, rfl, ?_, ?_,
    rfl, ?_, ?_, rfl⟩
  · simp only [repaidLoan, hmax]
  · simp only [repaidLoan, hmax]
    norm_num
  · simp only [repaymentRow, hb]
  · simp only [repaymentRow, hmax]

/-- Witness for C10: a zero-amount call on the concrete completed loan. -/
theorem C10_completed_absorbing_witness :
    ∃ s', record_loan_repayment stDone 1 25 td0 "2026-01-02" "u"
        = .ok () s' ∧
      findLoan s' 1 = some (repaidLoan loanDone 25) ∧
      (repaidLoan loanDone 25).amount_paid = loanDone.amount_paid + 25 ∧
      (repaidLoan loanDone 25).balance_outstanding = 0 ∧
      (repaidLoan loanDone 25).status = LoanStatus.Completed ∧
      stDone.loan_repayments ++ [repaymentRow 1 loanDone 25 "2026-01-02" "u"]
          = s'.loan_repayments ∧
      (repaymentRow 1 loanDone 25 "2026-01-02" "u").balance_before = 0 ∧
      (repaymentRow 1 loanDone 25 "2026-01-02" "u").balance_after = 0 ∧
      s'.transactions = stDone.transactions ++
        [transactionRow stDone loanDone.member_id mem0.station_id
          "Loan Repayment" "Loan" (toString 1) 25 false td0 "u"] := by
  obtain ⟨s', h1, h2, h3, h4, h5, h6, h7, h8, h9⟩ :=
    C10_completed_absorbing stDone 1 25 td0 "2026-01-02" "u" loanDone mem0
      rfl rfl rfl rfl (by norm_num)
  exact ⟨s', h1, h2, h3, h4, h5, h6.symm, h7, h8, h9⟩

/-- Claim C3: for every savings account (member present), a withdrawal with
`amount ≤ current_balance` decreases `current_balance` by exactly the
amount, increases `total_withdrawals` by the amount, leaves
`total_deposits` unchanged and appends one `transactions` row with
`is_credit = false`; a withdrawal with `amount > current_balance` fails
with the insufficient-funds error, performs no mutation (the state at the
raise is the input state, so `current_balance`, `total_deposits` and
`total_withdrawals` are unchanged) and appends no `transactions` row. -/
theorem C3_withdraw (s : DbState) (aid : Nat) (amt : ℚ)
    (td : TransactionData) (cb : String) (acct : SavingsAccount) (mem : Member)
    (ha : findAccount s aid = some acct)
    (hm : findMember s acct.member_id = some mem) :
    (amt ≤ acct.current_balance →
      ∃ s', withdraw_from_savings s aid amt td cb = .ok () s' ∧
        findAccount s' aid = some (withdrawnAccount acct amt) ∧
        (withdrawnAccount acct amt).current_balance
          = acct.current_balance - amt ∧
        (withdrawnAccount acct amt).total_withdrawals
          = acct.total_withdrawals + amt ∧
        (withdrawnAccount acct amt).total_deposits = acct.total_deposits ∧
        s'.transactions = s.transactions ++
          [transactionRow s acct.member_id mem.station_id
            "Savings Withdrawal" "Savings" (toString aid) amt false td cb] ∧
        (transactionRow s acct.member_id mem.station_id "Savings Withdrawal"
          "Savings" (toString aid) amt false td cb).is_credit = false) ∧
    (acct.current_balance < amt →
      withdraw_from_savings s aid amt td cb
        = .err (.valueError "Insufficient balance") s) := by
  constructor
  · intro hb
    refine ⟨_, withdraw_effect_ok s aid amt td cb acct mem ha hm hb, ?_, rfl,
      rfl, rfl, rfl, rfl⟩
    exact findAccount_update s aid acct ha _ (fun x => rfl)
  · intro hb
    exact withdraw_effect_err s aid amt td cb acct ha hb

/-- Witness for C3 at the concrete 5000-balance account. -/
theorem C3_withdraw_witness :
    ((1000 : ℚ) ≤ acct5000.current_balance →
      ∃ s', withdraw_from_savings stSav 1 1000 td0 "u" = .ok () s' ∧
        findAccount s' 1 = some (withdrawnAccount acct5000 1000) ∧
        (withdrawnAccount acct5000 1000).current_balance
          = acct5000.current_balance - 1000 ∧
        (withdrawnAccount acct5000 1000).total_withdrawals
          = acct5000.total_withdrawals + 1000 ∧
        (withdrawnAccount acct5000 1000).total_deposits
          = acct5000.total_deposits ∧
        s'.transactions = stSav.transactions ++
          [transactionRow stSav acct5000.member_id mem0.station_id
            "Savings Withdrawal" "Savings" (toString 1) 1000 false td0 "u"] ∧
        (transactionRow stSav acct5000.member_id mem0.station_id
          "Savings Withdrawal" "Savings" (toString 1) 1000 false td0
          "u").is_credit = false) ∧
    (acct5000.current_balance < 1000 →
      withdraw_from_savings stSav 1 1000 td0 "u"
        = .err (.valueError "Insufficient balance") stSav) :=
  C3_withdraw stSav 1 1000 td0 "u" acct5000 mem0 rfl rfl

/-- Claim C5: for every existing savings account (member present) and every
`amount > 0`, `deposit_to_savings` increases `current_balance` by exactly
the amount, increases `total_deposits` by exactly the amount, leaves
`total_withdrawals` unchanged, and appends exactly one `transactions` row
with `is_credit = true`, `amount = amount` and `account_type = "Savings"`. -/
theorem C5_deposit (s : DbState) (aid : Nat) (amt : ℚ)
    (td : TransactionData) (cb : String) (acct : SavingsAccount) (mem : Member)
    (ha : findAccount s aid = some acct)
    (hm : findMember s acct.member_id = some mem)
    (_hpos : 0 < amt) :
    ∃ s', deposit_to_savings s aid amt td cb = .ok () s' ∧
      findAccount s' aid = some (depositedAccount acct amt) ∧
      (depositedAccount acct amt).current_balance
        = acct.current_balance + amt ∧
      (depositedAccount acct amt).total_deposits
        = acct.total_deposits + amt ∧
      (depositedAccount acct amt).total_withdrawals
        = acct.total_withdrawals ∧
      s'.transactions = s.transactions ++
        [transactionRow s acct.member_id mem.station_id "Savings Deposit"
          "Savings" (toString aid) amt true td cb] ∧
      (transactionRow s acct.member_id mem.station_id "Savings Deposit"
        "Savings" (toString aid) amt true td cb).is_credit = true ∧
      (transactionRow s acct.member_id mem.station_id "Savings Deposit"
        "Savings" (toString aid) amt true td cb).amount = amt ∧
      (transactionRow s acct.member_id mem.station_id "Savings Deposit"
        "Savings" (toString aid) amt true td cb).account_type = "Savings" := by
  refine ⟨_, deposit_effect s aid amt td cb acct mem ha hm, ?_, rfl, rfl, rfl,
    rfl, rfl, rfl, rfl⟩
  exact findAccount_update s aid acct ha _ (fun x => rfl)

/-- Witness for C5 at the concrete 5000-balance account. -/
theorem C5_deposit_witness :
    ∃ s', deposit_to_savings stSav 1 250 td0 "u" = .ok () s' ∧
      findAccount s' 1 = some (depositedAccount acct5000 250) ∧
      (depositedAccount acct5000 250).current_balance
        = acct5000.current_balance + 250 ∧
      (depositedAccount acct5000 250).total_deposits
        = acct5000.total_deposits + 250 ∧
      (depositedAccount acct5000 250).total_withdrawals
        = acct5000.total_withdrawals ∧
      s'.transactions = stSav.transactions ++
        [transactionRow stSav acct5000.member_id mem0.station_id
          "Savings Deposit" "Savings" (toString 1) 250 true td0 "u"] ∧
      (transactionRow stSav acct5000.member_id mem0.station_id
        "Savings Deposit" "Savings" (toString 1) 250 true td0 "u").is_credit
        = true ∧
      (transactionRow stSav acct5000.member_id mem0.station_id
        "Savings Deposit" "Savings" (toString 1) 250 true td0 "u").amount
        = 250 ∧
      (transactionRow stSav acct5000.member_id mem0.station_id
        "Savings Deposit" "Savings" (toString 1) 250 true td0 "u").account_type
        = "Savings" :=
  C5_deposit stSav 1 250 td0 "u" acct5000 mem0 rfl rfl (by norm_num)

/-- Claim C6 counterexample: depositing to the nonexistent account id `1`
fails with the unhandled `TypeError` from subscripting the missing
(`None`) row — not with a deliberate NotFound validation error (the code's
NotFound convention is `raise ValueError(...)`, as in
`record_loan_repayment`).  The state at the failure is the unchanged input
state. -/
theorem C6_counterexample :
    deposit_to_savings stNoAcct 1 50 td0 "u"
      = .err .typeErrorNoneSubscript stNoAcct := by decide

/-- Claim C6 (amended): for every `account_id` that does not identify an
existing savings account, `deposit_to_savings` fails — but with the
unhandled `TypeError` from subscripting the `None` fetch result, not with
a NotFound validation error; the balance `UPDATE` issued before the
existence check matches no rows, so the state at the failure equals the
input state: no balance change and no `transactions` row appended. -/
theorem C6_deposit_missing_account (s : DbState) (aid : Nat) (amt : ℚ)
    (td : TransactionData) (cb : String)
    (h : findAccount s aid = none) :
    deposit_to_savings s aid amt td cb = .err .typeErrorNoneSubscript s := by
  have h0 : s.savings_accounts.find? (fun a => a.account_id == aid)
      = none := h
  have h1 := map_pointwise_of_none s.savings_accounts
    (fun a => a.account_id == aid) (fun x => depositedAccount x amt) h0
  simp only [depositedAccount] at h1
  simp only [deposit_to_savings, findAccount, h1, h0]

/-- Witness for C6 at a concrete state with no accounts. -/
theorem C6_deposit_missing_account_witness :
    deposit_to_savings stNoAcct 7 125 td0 "u"
      = .err .typeErrorNoneSubscript stNoAcct :=
  C6_deposit_missing_account stNoAcct 7 125 td0 "u" rfl

/-- Claim C9 counterexample: on an account whose balance has been driven to
`-100` (reachable, since `deposit_to_savings` accepts negative amounts
unchecked), a withdrawal of `-50` — a negative amount, which the claim
says always succeeds — raises `ValueError("Insufficient balance")`,
because the only check is `current_balance < amount` and `-100 < -50`. -/
theorem C9_counterexample :
    withdraw_from_savings stSavNeg 1 (-50) td0 "u"
      = .err (.valueError "Insufficient balance") stSavNeg := by
  have ha : findAccount stSavNeg 1
      = some { acct5000 with current_balance := -100 } := rfl
  exact withdraw_effect_err stSavNeg 1 (-50) td0 "u" _ ha (by norm_num)

/-- Claim C9 (amended): `withdraw_from_savings` raises an error iff
`current_balance < amount` (the sign of the amount is never checked); for
every account and negative amount with `amount ≤ current_balance` — in
particular for any account with a nonnegative balance — the call succeeds:
it increases `current_balance` by `|amount|`, adds the negative amount to
`total_withdrawals`, and appends a debit (`is_credit = false`) transaction
whose `amount` field is negative.  For an account whose balance is below
the (negative) amount the call fails instead (`C9_counterexample`). -/
theorem C9_withdraw_negative (s : DbState) (aid : Nat) (amt : ℚ)
    (td : TransactionData) (cb : String) (acct : SavingsAccount) (mem : Member)
    (ha : findAccount s aid = some acct)
    (hm : findMember s acct.member_id = some mem) :
    ((∃ e s1, withdraw_from_savings s aid amt td cb = .err e s1) ↔
      acct.current_balance < amt) ∧
    (amt < 0 → amt ≤ acct.current_balance →
      ∃ s', withdraw_from_savings s aid amt td cb = .ok () s' ∧
        findAccount s' aid = some (withdrawnAccount acct amt) ∧
        (withdrawnAccount acct amt).current_balance
          = acct.current_balance + (-amt) ∧
        0 < -amt ∧
        (withdrawnAccount acct amt).total_withdrawals
          = acct.total_withdrawals + amt ∧
        s'.transactions = s.transactions ++
          [transactionRow s acct.member_id mem.station_id
            "Savings Withdrawal" "Savings" (toString aid) amt false td cb] ∧
        (transactionRow s acct.member_id mem.station_id "Savings Withdrawal"
          "Savings" (toString aid) amt false td cb).is_credit = false ∧
        (transactionRow s acct.member_id mem.station_id "Savings Withdrawal"
          "Savings" (toString aid) amt false td cb).amount < 0) := by
  constructor
  · constructor
    · rintro ⟨e, s1, he⟩
      by_contra hnot
      rw [withdraw_effect_ok s aid amt td cb acct mem ha hm (not_lt.mp hnot)]
        at he
      exact DbRes.noConfusion he
    · intro hlt
      exact ⟨_, _, withdraw_effect_err s aid amt td cb acct ha hlt⟩
  · intro hneg hle
    refine ⟨_, withdraw_effect_ok s aid amt td cb acct mem ha hm hle, ?_,
      by simp only [withdrawnAccount]; ring_nf, by linarith, rfl, rfl, rfl,
      by simp only [transactionRow]; exact hneg⟩
    exact findAccount_update s aid acct ha _ (fun x => rfl)

/-- Witness for C9: a negative-amount withdrawal on the concrete
5000-balance account. -/
theorem C9_withdraw_negative_witness :
    ((∃ e s1, withdraw_from_savings stSav 1 (-50) td0 "u" = .err e s1) ↔
      acct5000.current_balance < (-50 : ℚ)) ∧
    ((-50 : ℚ) < 0 → (-50 : ℚ) ≤ acct5000.current_balance →
      ∃ s', withdraw_from_savings stSav 1 (-50) td0 "u" = .ok () s' ∧
        findAccount s' 1 = some (withdrawnAccount acct5000 (-50)) ∧
        (withdrawnAccount acct5000 (-50)).current_balance
          = acct5000.current_balance + (-(-50)) ∧
        (0 : ℚ) < -(-50) ∧
        (withdrawnAccount acct5000 (-50)).total_withdrawals
          = acct5000.total_withdrawals + (-50) ∧
        s'.transactions = stSav.transactions ++
          [transactionRow stSav acct5000.member_id mem0.station_id
            "Savings Withdrawal" "Savings" (toString 1) (-50) false td0
            "u"] ∧
        (transactionRow stSav acct5000.member_id mem0.station_id
          "Savings Withdrawal" "Savings" (toString 1) (-50) false td0
          "u").is_credit = false ∧
        (transactionRow stSav acct5000.member_id mem0.station_id
          "Savings Withdrawal" "Savings" (toString 1) (-50) false td0
          "u").amount < 0) :=
  C9_withdraw_negative stSav 1 (-50) td0 "u" acct5000 mem0 rfl rfl

theorem disburse_effect (s : DbState) (ld : LoanData) (now : String)
    (td : TransactionData) (cb : String) (mem : Member)
    (hm : findMember s ld.member_id = some mem) :
    disburse_loan s ld now td cb = .ok s.next_loan_id
      { s with
        loans := s.loans ++ [disbursedLoan s ld now]
        next_loan_id := s.next_loan_id + 1
        transactions := s.transactions ++
          [transactionRow s ld.member_id mem.station_id "Loan Disbursement"
            "Loan" (toString s.next_loan_id) ld.principal_amount true td cb]
        next_transaction_id := s.next_transaction_id + 1 } := by
  simp only [disburse_loan, record_transaction, disbursedLoan, transactionRow]
  simp only [findMember] at hm ⊢
  rw [hm]

/-- Claim C4 counterexample: disbursing principal `1` at flat rate `1/8` %
stores `interest_amount = 1 * ((1/8)/100) = 1/800`, while the claim's
`round(principal * rate/100, 2)` is `0`; the stored value is the exact
product, not the two-decimal rounding. -/
theorem C4_counterexample :
    ((disburse_loan stSav ldFrac "20260101000000" td0 "u").isOk = true) ∧
    ((findLoan (disburse_loan stSav ldFrac "20260101000000" td0 "u").stateOf
        1).map (fun l => l.interest_amount) = some (1 / 800)) ∧
    round2 (ldFrac.principal_amount * (ldFrac.interest_rate / 100)) = 0 ∧
    (1 / 800 : ℚ) ≠ 0 := by
  refine ⟨?_, ?_, ?_, by norm_num⟩
  · rw [disburse_effect stSav ldFrac "20260101000000" td0 "u" mem0 rfl]
    rfl
  · rw [disburse_effect stSav ldFrac "20260101000000" td0 "u" mem0 rfl]
    simp only [DbRes.stateOf, findLoan, disbursedLoan, ldFrac, stSav,
      List.find?, List.append_nil, List.nil_append]
    norm_num
  · rw [round2, ldFrac]
    norm_num [round_eq]

/-- Claim C4 (amended): for every disbursed loan with `principal > 0` and
`duration_months > 0` (member present), the stored loan row satisfies
`interest_amount = principal * rate/100` **exactly, with no rounding to
two decimals** (`C4_counterexample` shows the stored value differs from
`round(.,2)`), `total_amount = principal + interest_amount`,
`monthly_installment = total_amount / duration_months`,
`balance_outstanding = total_amount`, `amount_paid = 0` and
`status = "Active"` immediately after disbursement. -/
theorem C4_disburse (s : DbState) (ld : LoanData) (now : String)
    (td : TransactionData) (cb : String) (mem : Member)
    (hm : findMember s ld.member_id = some mem)
    (_hp : 0 < ld.principal_amount) (_hd : 0 < ld.duration_months) :
    ∃ s', disburse_loan s ld now td cb = .ok s.next_loan_id s' ∧
      s'.loans = s.loans ++ [disbursedLoan s ld now] ∧
      (disbursedLoan s ld now).interest_amount
        = ld.principal_amount * (ld.interest_rate / 100) ∧
      (disbursedLoan s ld now).total_amount
        = ld.principal_amount + (disbursedLoan s ld now).interest_amount ∧
      (disbursedLoan s ld now).monthly_installment
        = (disbursedLoan s ld now).total_amount / (ld.duration_months : ℚ) ∧
      (disbursedLoan s ld now).balance_outstanding
        = (disbursedLoan s ld now).total_amount ∧
      (disbursedLoan s ld now).amount_paid = 0 ∧
      (disbursedLoan s ld now).status = LoanStatus.Active := by
  exact ⟨_, disburse_effect s ld now td cb mem hm, rfl, rfl, rfl, rfl, rfl,
    rfl, rfl⟩

/-- Witness for C4 at the concrete 100000-at-10%-for-12-months loan. -/
theorem C4_disburse_witness :
    ∃ s', disburse_loan stSav ld0 "20260101000000" td0 "u"
        = .ok stSav.next_loan_id s' ∧
      s'.loans = stSav.loans ++ [disbursedLoan stSav ld0 "20260101000000"] ∧
      (disbursedLoan stSav ld0 "20260101000000").interest_amount
        = ld0.principal_amount * (ld0.interest_rate / 100) ∧
      (disbursedLoan stSav ld0 "20260101000000").total_amount
        = ld0.principal_amount +
          (disbursedLoan stSav ld0 "20260101000000").interest_amount ∧
      (disbursedLoan stSav ld0 "20260101000000").monthly_installment
        = (disbursedLoan stSav ld0 "20260101000000").total_amount /
          (ld0.duration_months : ℚ) ∧
      (disbursedLoan stSav ld0 "20260101000000").balance_outstanding
        = (disbursedLoan stSav ld0 "20260101000000").total_amount ∧
      (disbursedLoan stSav ld0 "20260101000000").amount_paid = 0 ∧
      (disbursedLoan stSav ld0 "20260101000000").status = LoanStatus.Active :=
  C4_disburse stSav ld0 "20260101000000" td0 "u" mem0 rfl
    (by norm_num [ld0]) (by norm_num [ld0])

theorem ofDigits_replicate_zero (k : Nat) :
    Nat.ofDigits 10 (List.replicate k 0) = 0 := by
  induction k with
  | zero => rfl
  | succ k ih => simp [List.replicate_succ, Nat.ofDigits_cons, ih]

theorem ofDigits_padDigits (n : Nat) :
    Nat.ofDigits 10 (padDigits n).reverse = n := by
  unfold padDigits natDigits
  rw [List.reverse_append, List.reverse_reverse, List.reverse_replicate,
    Nat.ofDigits_append, Nat.ofDigits_digits, ofDigits_replicate_zero]
  simp

theorem padDigits_lt (n : Nat) : ∀ d ∈ padDigits n, d < 10 := by
  intro d hd
  rcases List.mem_append.mp hd with h | h
  · rw [List.eq_of_mem_replicate h]
    norm_num
  · exact Nat.digits_lt_base (by norm_num)
      (List.mem_reverse.mp h)

theorem digitChar_inj_lt :
    ∀ a, a < 10 → ∀ b, b < 10 → digitChar a = digitChar b → a = b := by
  decide

theorem map_digitChar_inj : ∀ (l1 l2 : List Nat),
    (∀ d ∈ l1, d < 10) → (∀ d ∈ l2, d < 10) →
    l1.map digitChar = l2.map digitChar → l1 = l2 := by
  intro l1
  induction l1 with
  | nil =>
    intro l2 _ _ h
    cases l2 with
    | nil => rfl
    | cons b t2 => simp at h
  | cons a t ih =>
    intro l2 h1 h2 h
    cases l2 with
    | nil => simp at h
    | cons b t2 =>
      simp only [List.map_cons, List.cons.injEq] at h
      have hab := digitChar_inj_lt a (h1 a (by simp)) b (h2 b (by simp)) h.1
      rw [hab,
        ih t2 (fun d hd => h1 d (by simp [hd])) (fun d hd => h2 d (by simp [hd]))
          h.2]

theorem pad4_data_inj (m n : Nat)
    (h : (pad4 m).data = (pad4 n).data) : m = n := by
  have hp : padDigits m = padDigits n :=
    map_digitChar_inj _ _ (padDigits_lt m) (padDigits_lt n) h
  have h2 := congrArg (fun l => Nat.ofDigits 10 l.reverse) hp
  simp only [ofDigits_padDigits] at h2
  exact h2

/-- Claim C7: every `add_member` call allocates
`member_id = "NFC" + f"{next_member_number:04d}"` (the zero-padded
four-digit decimal rendering of the `next_member_number` setting), writes
`value + 1` back to that setting in the same operation, and consequently a
second, sequential allocation returns a distinct member id. -/
theorem C7_add_member (s : DbState) (md md2 : MemberData) (cb cb2 : String) :
    (add_member s md cb).1 = "NFC" ++ pad4 (get_next_member_number s) ∧
    (add_member s md cb).2.next_member_number
      = get_next_member_number s + 1 ∧
    (add_member (add_member s md cb).2 md2 cb2).1 ≠ (add_member s md cb).1 := by
  refine ⟨rfl, rfl, fun h => ?_⟩
  have h2 : "NFC".data ++ (pad4 (s.next_member_number + 1)).data
      = "NFC".data ++ (pad4 s.next_member_number).data :=
    congrArg String.data h
  have h3 := pad4_data_inj _ _ (List.append_cancel_left h2)
  omega

theorem txOrder_total (a b : Transaction) : (txOrder a b || txOrder b a) = true := by
  simp only [txOrder, Bool.or_eq_true, Bool.and_eq_true, decide_eq_true_eq,
    beq_iff_eq]
  rcases lt_trichotomy a.transaction_date b.transaction_date with h | h | h
  · right
    left
    exact h
  · rcases Nat.le_total a.transaction_id b.transaction_id with hid | hid
    · right
      right
      exact ⟨h.symm, hid⟩
    · left
      right
      exact ⟨h, hid⟩
  · left
    left
    exact h

theorem txOrder_trans (a b c : Transaction) (h1 : txOrder a b)
    (h2 : txOrder b c) : txOrder a c := by
  simp only [txOrder, Bool.or_eq_true, Bool.and_eq_true, decide_eq_true_eq,
    beq_iff_eq] at h1 h2 ⊢
  rcases h1 with h1 | ⟨h1e, h1i⟩ <;> rcases h2 with h2 | ⟨h2e, h2i⟩
  · left
    exact lt_trans h2 h1
  · left
    rwa [h2e] at h1
  · left
    rwa [← h1e] at h2
  · right
    exact ⟨h1e.trans h2e, le_trans h2i h1i⟩

theorem txMatches_eq_spec (m sd ed : Option String)
    (hm : m ≠ some "") (hsd : sd ≠ some "") (hed : ed ≠ some "")
    (t : Transaction) : txMatches m sd ed t = specMatches m sd ed t := by
  cases m <;> cases sd <;> cases ed <;>
    simp_all [txMatches, specMatches, strTruthy]

/-- Claim C8 counterexample: with the filter `member_id` *supplied* as the
empty string, `get_transactions` ignores it — Python's `if member_id:`
treats `""` as absent — and returns every row, including `txA`, whose
`member_id` `"NFC0001"` does not satisfy the supplied filter. -/
theorem C8_counterexample :
    get_transactions stTx (some "") none none = [txA, txB] ∧
    specMatches (some "") none none txA = false := by
  constructor
  · simp +decide [get_transactions, List.mergeSort, txMatches, strTruthy,
      stTx, stSav, txA, txB, txOrder, List.filter]
  · decide

/-- Claim C8 (amended): for every combination of the optional filters
`member_id`, `start_date`, `end_date`, each either absent or a non-empty
string (a filter supplied as the empty string is treated as absent by the
code's truthiness test, `C8_counterexample`), `get_transactions` returns
exactly the `transactions` rows satisfying the conjunction of the
supplied filters — a permutation of `filter` by the spec predicate —
ordered by `transaction_date` descending with ties broken by
`transaction_id` descending. -/
theorem C8_get_transactions (s : DbState) (m sd ed : Option String)
    (hm : m ≠ some "") (hsd : sd ≠ some "") (hed : ed ≠ some "") :
    List.Perm (get_transactions s m sd ed)
      (s.transactions.filter (specMatches m sd ed)) ∧
    List.Pairwise (fun t1 t2 => txOrder t1 t2 = true)
      (get_transactions s m sd ed) := by
  have hfilter : s.transactions.filter (txMatches m sd ed)
      = s.transactions.filter (specMatches m sd ed) :=
    List.filter_congr (fun t _ => txMatches_eq_spec m sd ed hm hsd hed t)
  constructor
  · rw [get_transactions, hfilter]
    exact List.mergeSort_perm _ _
  · rw [get_transactions]
    exact List.sorted_mergeSort (fun a b c => txOrder_trans a b c)
      (fun a b => txOrder_total a b) _

/-- Witness for C8 at the concrete two-row ledger. -/
theorem C8_get_transactions_witness :
    List.Perm
      (get_transactions stTx (some "NFC0001") (some "2026-01-01") none)
      (stTx.transactions.filter
        (specMatches (some "NFC0001") (some "2026-01-01") none)) ∧
    List.Pairwise (fun t1 t2 => txOrder t1 t2 = true)
      (get_transactions stTx (some "NFC0001") (some "2026-01-01") none) :=
  C8_get_transactions stTx (some "NFC0001") (some "2026-01-01") none
    (by decide) (by decide) (by decide)

end NfcSacco
